import Mathlib

/-!
Verification of the voxi-back real-time call-session orchestrator.

The TypeScript services are shallowly embedded as pure Lean functions:

* JS `Map<string, V>` registries become association lists `List (String × V)`
  with `mapGet?`, `mapSet`, `mapDelete` mirroring `Map.get` / `Map.set` /
  `Map.delete` (a `Map` never holds duplicate keys, so `mapDelete` removing
  every entry with the key coincides with `Map.delete` on reachable states).
* `Date` timestamps become `Nat` arguments (`now`), random call identifiers
  become explicit arguments, and each call to an external provider (SIP
  negotiation, Vertex AI, Google AI) becomes an oracle argument of type
  `Except String _` carrying that call's outcome.
* Thrown JS errors become `Except.error` with the thrown message; `emit`ted
  events become explicit event lists in the result.
-/

/-- Lookup in an association list, mirroring JS `Map.get`. -/
def mapGet? {α : Type} : List (String × α) → String → Option α
  | [], _ => none
  | (k, v) :: rest, key => if k = key then some v else mapGet? rest key

/-- Insert-or-replace, mirroring JS `Map.set` (replaces in place, else appends). -/
def mapSet {α : Type} : List (String × α) → String → α → List (String × α)
  | [], key, val => [(key, val)]
  | (k, v) :: rest, key, val =>
      if k = key then (k, val) :: rest else (k, v) :: mapSet rest key val

/-- Removal, mirroring JS `Map.delete` (keys are unique in a `Map`). -/
def mapDelete {α : Type} : List (String × α) → String → List (String × α)
  | [], _ => []
  | (k, v) :: rest, key =>
      if k = key then mapDelete rest key else (k, v) :: mapDelete rest key

theorem mapGet_mapDelete {α : Type} (l : List (String × α)) (key : String) :
    mapGet? (mapDelete l key) key = none := by
  induction l with
  | nil => rfl
  | cons hd tl ih =>
      obtain ⟨k, v⟩ := hd
      by_cases h : k = key
      · simp [mapDelete, h, ih]
      · simp [mapDelete, mapGet?, h, ih]

theorem mapGet_mapSet {α : Type} (l : List (String × α)) (key : String) (val : α) :
    mapGet? (mapSet l key val) key = some val := by
  induction l with
  | nil => simp [mapSet, mapGet?]
  | cons hd tl ih =>
      obtain ⟨k, v⟩ := hd
      by_cases h : k = key
      · simp [mapSet, h, mapGet?]
      · simp [mapSet, mapGet?, h, ih]

theorem mapSet_mapSet {α : Type} (l : List (String × α)) (key : String) (a b : α) :
    mapSet (mapSet l key a) key b = mapSet l key b := by
  induction l with
  | nil => simp [mapSet]
  | cons hd tl ih =>
      obtain ⟨k, v⟩ := hd
      by_cases h : k = key
      · simp [mapSet, h]
      · simp [mapSet, h, ih]

/-- JS `x || fallback` for an optional string: `undefined` and `""` are falsy. -/
def jsOr (s : Option String) (fallback : String) : String :=
  match s with
  | none => fallback
  | some t => if t = "" then fallback else t

/-- Call direction, from `CallSession.direction` in `sip.service.ts`. -/
inductive Direction
  | inbound
  | outbound
deriving DecidableEq, Repr

namespace Sip

/-- Status field of `CallSession` in `sip.service.ts`. -/
inductive CallStatus
  | ringing
  | ongoing
  | completed
  | failed
deriving DecidableEq, Repr

/-- `CallSession` from `sip.service.ts`; the opaque `sipDialog` handle is
modelled by its presence (`hasDialog`), `mediaStream` is never set. -/
structure CallSession where
  callId : String
  direction : Direction
  phoneNumber : String
  status : CallStatus
  startedAt : Nat
  answeredAt : Option Nat := none
  endedAt : Option Nat := none
  hasDialog : Bool := false
deriving DecidableEq, Repr

/-- State of `SipService`: the `activeCalls` registry plus the configuration
fields read by the embedded operations. -/
structure SipState where
  activeCalls : List (String × CallSession)
  maxSessions : Nat
  sipNumber : String
deriving DecidableEq, Repr

/-- Events `emit`ted by `SipService`. -/
inductive SipEvent
  | callIncoming (s : CallSession)
  | callAnswered (s : CallSession)
  | callConnected (s : CallSession)
  | callEnded (s : CallSession)
  | callFailed (s : CallSession)
deriving DecidableEq, Repr

/-- `isMaxSessionsReached` from `sip.service.ts`. -/
def isMaxSessionsReached (st : SipState) : Bool :=
  st.activeCalls.length ≥ st.maxSessions

/-- Message of the error thrown by `hangupCall` / `sendDTMF` lookups. -/
def callNotFound (callId : String) : String :=
  "Call " ++ callId ++ " not found"

/-- First half of `makeCall`: build the RINGING session and register it in
`activeCalls` (runs before protocol negotiation is attempted). -/
def makeCallRegister (st : SipState) (newCallId phoneNumber : String) (now : Nat) :
    CallSession × SipState :=
  let session : CallSession :=
    { callId := newCallId
      direction := Direction.outbound
      phoneNumber := phoneNumber
      status := CallStatus.ringing
      startedAt := now }
  (session, { st with activeCalls := mapSet st.activeCalls newCallId session })

/-- Second half of `makeCall`: the `try` block around `srf.createUAC`.
`negotiation` is the outcome of the external UAC negotiation; on success the
session (mutated in place in TS, hence re-stored here) becomes ONGOING and
`call:connected` fires; on failure it is marked failed, `call:failed` fires,
the session is deleted and the negotiation error is rethrown. -/
def makeCallNegotiation (st : SipState) (session : CallSession)
    (negotiation : Except String Unit) (now : Nat) :
    Except String CallSession × SipState × List SipEvent :=
  match negotiation with
  | Except.ok _ =>
      let session' := { session with
        status := CallStatus.ongoing
        answeredAt := some now
        hasDialog := true }
      (Except.ok session',
       { st with activeCalls := mapSet st.activeCalls session.callId session' },
       [SipEvent.callConnected session'])
  | Except.error e =>
      let session' := { session with
        status := CallStatus.failed
        endedAt := some now }
      (Except.error e,
       { st with activeCalls := mapDelete st.activeCalls session.callId },
       [SipEvent.callFailed session'])

/-- `makeCall` from `sip.service.ts`: registers a RINGING session, then
negotiates. `newCallId` stands for `generateCallId()`, `fromNumber` is the
optional caller id (only used for the wire-level From header, via `jsOr`
with the configured `sipNumber`). Note: no capacity check is performed. -/
def makeCall (st : SipState) (newCallId phoneNumber : String)
    (fromNumber : Option String) (now : Nat) (negotiation : Except String Unit) :
    Except String CallSession × SipState × List SipEvent :=
  let _fromHeader := jsOr fromNumber st.sipNumber
  let (session, st1) := makeCallRegister st newCallId phoneNumber now
  makeCallNegotiation st1 session negotiation now

/-- `handleCallEnd` from `sip.service.ts`: idempotent terminal handler; a
second termination signal finds no session and is a no-op. -/
def handleCallEnd (st : SipState) (callId : String) (reason : CallStatus) (now : Nat) :
    SipState × List SipEvent :=
  match mapGet? st.activeCalls callId with
  | none => (st, [])
  | some s =>
      let s' := { s with status := reason, endedAt := some now }
      ({ st with activeCalls := mapDelete st.activeCalls callId },
       [SipEvent.callEnded s'])

/-- `hangupCall` from `sip.service.ts`: throws when the call is unknown,
otherwise destroys the dialog (external) and runs the terminal handler. -/
def hangupCall (st : SipState) (callId : String) (now : Nat) :
    Except String Unit × SipState × List SipEvent :=
  match mapGet? st.activeCalls callId with
  | none => (Except.error (callNotFound callId), st, [])
  | some _ =>
      let (st', evs) := handleCallEnd st callId CallStatus.completed now
      (Except.ok (), st', evs)

end Sip

namespace Gateway

/-- `ManagerSession` from `webrtc.gateway.ts`; the socket handle is modelled
by its identity (`socketId`), audio chunks as lists of bytes. -/
structure ManagerSession where
  socketId : String
  managerId : String
  managerName : String
  currentCallId : Option String := none
  isRecording : Bool
  audioChunks : List (List Nat)
deriving DecidableEq, Repr

/-- The gateway's `managerSessions` map, keyed by manager identifier. -/
abbrev GatewayState : Type := List (String × ManagerSession)

/-- Outcome of `handleConnection` in `webrtc.gateway.ts`: either the client
is disconnected immediately or a `connected` acknowledgement is emitted. -/
inductive ConnectAction
  | disconnectClient
  | acknowledge
deriving DecidableEq, Repr

/-- `handleConnection` from `webrtc.gateway.ts`. The handshake auth token is
only tested for JS truthiness (`if (!token)`): absent or empty means
disconnect, anything else is acknowledged. The TODO comment in the source
notes the token is never verified. -/
def handleConnection (token : Option String) : ConnectAction :=
  match token with
  | none => ConnectAction.disconnectClient
  | some t =>
      if t = "" then ConnectAction.disconnectClient else ConnectAction.acknowledge

/-- `handleDisconnect` from `webrtc.gateway.ts`: walk `managerSessions` to
the first session whose socket matches; if it holds a current call, await
`sipService.hangupCall` (no try/catch — a thrown error aborts the handler
before the `delete`, so the session stays in the map); otherwise delete the
session and stop. -/
def handleDisconnect (gw : GatewayState) (sip : Sip.SipState)
    (clientId : String) (now : Nat) :
    Except String Unit × GatewayState × Sip.SipState × List Sip.SipEvent :=
  match gw with
  | [] => (Except.ok (), [], sip, [])
  | (mid, s) :: rest =>
      if s.socketId = clientId then
        match s.currentCallId with
        | none => (Except.ok (), rest, sip, [])
        | some cid =>
            match Sip.hangupCall sip cid now with
            | (Except.ok _, sip', evs) => (Except.ok (), rest, sip', evs)
            | (Except.error e, sip', _) => (Except.error e, (mid, s) :: rest, sip', [])
      else
        match handleDisconnect rest sip clientId now with
        | (r, gw', sip', evs) => (r, (mid, s) :: gw', sip', evs)

end Gateway

namespace Gemini

/-- A minimal JSON value type for the payloads built in
`gemini-live.service.ts` (tool results and tool responses). -/
inductive Json
  | str (s : String)
  | num (q : ℚ)
  | bool (b : Bool)
  | arr (xs : List Json)
  | obj (fields : List (String × Json))

/-- `AudioChunk` from `gemini-live.service.ts`. -/
structure AudioChunk where
  data : List Nat
  timestamp : Nat
deriving DecidableEq, Repr

/-- The per-session mutable fields of `GeminiLiveService`: the WebSocket
handle (`some b` with `b` = readyState is OPEN), session token, connected
flag, pending-audio queue and the in-progress transcript accumulator. -/
structure GeminiLiveState where
  ws : Option Bool
  sessionId : Option String
  isConnected : Bool
  audioQueue : List AudioChunk
  transcriptBuffer : String
deriving DecidableEq, Repr

/-- `disconnect` from `gemini-live.service.ts`: if a socket handle exists,
close it and null out `ws`, `isConnected` and `sessionId`; otherwise do
nothing. `audioQueue` and `transcriptBuffer` are not touched. -/
def disconnect (st : GeminiLiveState) : GeminiLiveState :=
  match st.ws with
  | some _ => { st with ws := none, isConnected := false, sessionId := none }
  | none => st

/-- One entry of `toolCall.functionCalls`; `args` modelled as string pairs. -/
structure FunctionCall where
  id : String
  name : String
  args : List (String × String)

/-- An inbound `tool-call` message payload. -/
structure ToolCall where
  functionCalls : List FunctionCall

/-- One entry of the outbound `toolResponse.functionCalls` array, correlated
by the original function-call identifier. -/
structure ToolResponse where
  id : String
  response : Json

/-- `processToolCall` from `gemini-live.service.ts`: reads
`functionCalls[0].name` (throwing a TypeError when the array is empty) and
dispatches on the function name; unknown names yield an error-shaped
result. `now` stands for `Date.now()` in the generated appointment id. -/
def processToolCall (tc : ToolCall) (now : Nat) : Except String Json :=
  match tc.functionCalls with
  | [] => Except.error "TypeError: Cannot read properties of undefined (reading name)"
  | fc :: _ =>
      if fc.name = "searchKnowledgeBase" then
        Except.ok (Json.obj [("results", Json.arr [Json.obj
          [("title", Json.str "Sample Result"),
           ("content", Json.str "This would be actual knowledge base content"),
           ("relevance", Json.num (19 / 20))]])])
      else if fc.name = "scheduleAppointment" then
        Except.ok (Json.obj
          [("success", Json.bool true),
           ("appointmentId", Json.str ("apt-" ++ toString now)),
           ("message", Json.str "Appointment scheduled successfully")])
      else
        Except.ok (Json.obj [("error", Json.str ("Unknown function: " ++ fc.name))])

/-- `handleToolCall` from `gemini-live.service.ts`: on a resolved
`processToolCall` it sends exactly one `toolResponse` correlated by
`functionCalls[0].id`; on a rejected one the `.catch` only logs — nothing
is sent. Returns the list of outbound tool responses handed to `send`. -/
def handleToolCall (tc : ToolCall) (now : Nat) : List ToolResponse :=
  match processToolCall tc now with
  | Except.ok result =>
      match tc.functionCalls with
      | [] => []
      | fc :: _ => [⟨fc.id, result⟩]
  | Except.error _ => []

end Gemini

namespace GCloud

/-- The two generation providers tried by `generateAIResponse` in
`google-cloud.service.ts`. -/
inductive Provider
  | vertexAI
  | googleAI
deriving DecidableEq, Repr

/-- The Vertex-to-Google-AI model-name remapping inside the fallback branch
of `generateAIResponse`. -/
def mapGoogleAIModelName (modelName : String) : String :=
  if modelName = "gemini-pro" ∨ modelName = "gemini-1.5-pro" then
    "gemini-2.5-pro"
  else if modelName = "gemini-1.5-flash" ∨ modelName = "gemini-1.5-flash-002" then
    "gemini-2.5-flash"
  else if modelName = "gemini-2.0-flash-exp" ∨ modelName = "gemini-2.0-flash" then
    "gemini-2.0-flash"
  else
    modelName

/-- `generateAIResponse` from `google-cloud.service.ts`. `genAIConfigured`
is whether `this.genAI` was initialized (a `GEMINI_API_KEY` was supplied);
`vertex` and `google` are the outcomes of the two remote provider calls.
Returns the overall result together with the list of providers actually
attempted: Vertex AI first; on its failure the Google AI fallback is tried
only when configured (both failing surfaces a combined error), otherwise
the Vertex error is rethrown as-is. -/
def generateAIResponse (genAIConfigured : Bool)
    (vertex google : Except String String) :
    Except String String × List Provider :=
  match vertex with
  | Except.ok text => (Except.ok text, [Provider.vertexAI])
  | Except.error vertexError =>
      if genAIConfigured then
        match google with
        | Except.ok text => (Except.ok text, [Provider.vertexAI, Provider.googleAI])
        | Except.error googleAIError =>
            (Except.error ("AI generation failed: Vertex AI - " ++ vertexError ++
              ", Google AI - " ++ googleAIError),
             [Provider.vertexAI, Provider.googleAI])
      else
        (Except.error vertexError, [Provider.vertexAI])

end GCloud

namespace AIConv

/-- Role of a conversation turn. -/
inductive Role
  | user
  | assistant
deriving DecidableEq, Repr

/-- One entry of `conversationHistory` in `ai-conversation.service.ts`. -/
structure Turn where
  role : Role
  content : String
deriving DecidableEq, Repr

/-- The `aiSettings` fields of an agent read by the orchestrator. -/
structure AISettings where
  model : String
  systemPrompt : String
  temperature : ℚ
  maxTokens : Nat
deriving DecidableEq, Repr

/-- The agent-configuration fields read by `ai-conversation.service.ts`
(voice settings only feed the external TTS call and are omitted). -/
structure Agent where
  inboundGreetingMessage : Option String := none
  outboundGreetingMessage : Option String := none
  aiSettings : Option AISettings := none
  knowledgeBaseId : Option String := none
deriving DecidableEq, Repr

/-- `AIConversationSession` from `ai-conversation.service.ts`. -/
structure AIConversationSession where
  callId : String
  agentId : String
  agent : Agent
  conversationHistory : List Turn
  audioBuffer : List (List Nat)
  isActive : Bool
deriving DecidableEq, Repr

/-- State of `AIConversationService`: the `activeSessions` map plus the
conversation-record store (callId to optional persisted transcript),
standing for the `conversationModel` collection. -/
structure AIState where
  activeSessions : List (String × AIConversationSession)
  store : List (String × Option String)
deriving DecidableEq, Repr

/-- `conversationModel.updateOne({callId}, {$set: {transcript}})`: update
the first matching record's transcript; no record matched means no write. -/
def storeUpdate : List (String × Option String) → String → String →
    List (String × Option String)
  | [], _, _ => []
  | (k, v) :: rest, key, t =>
      if k = key then (k, some t) :: rest else (k, v) :: storeUpdate rest key t

/-- Russian role label used for both the generation context and the
persisted transcript. -/
def roleLabel : Role → String
  | Role.user => "Пользователь"
  | Role.assistant => "Ассистент"

/-- `startSession` from `ai-conversation.service.ts`: load the agent and the
conversation record (throwing not-found errors), select the greeting by
direction with `||`-fallback defaults, and register a session whose history
is the single assistant greeting turn. `playGreeting` only calls external
TTS and emits `play-audio`; its errors are caught internally. -/
def startSession (st : AIState) (callId agentId : String) (direction : Direction)
    (agents : List (String × Agent)) : Except String AIState :=
  match mapGet? agents agentId with
  | none => Except.error ("Agent " ++ agentId ++ " not found")
  | some agent =>
      match mapGet? st.store callId with
      | none => Except.error ("Conversation " ++ callId ++ " not found")
      | some _ =>
          let greetingMessage :=
            match direction with
            | Direction.inbound =>
                jsOr agent.inboundGreetingMessage "Здравствуйте! Чем могу помочь?"
            | Direction.outbound =>
                jsOr agent.outboundGreetingMessage "Здравствуйте! Меня зовут AI ассистент."
          let session : AIConversationSession :=
            { callId := callId
              agentId := agentId
              agent := agent
              conversationHistory := [{ role := Role.assistant, content := greetingMessage }]
              audioBuffer := []
              isActive := true }
          Except.ok { st with activeSessions := mapSet st.activeSessions callId session }

/-- `buildSystemPrompt` from `ai-conversation.service.ts`. -/
def buildSystemPrompt (s : AIConversationSession) : String :=
  let base := jsOr (s.agent.aiSettings.map (fun a => a.systemPrompt))
    "Ты дружелюбный AI ассистент."
  match s.agent.knowledgeBaseId with
  | some _ =>
      base ++ "\n\nИспользуй следующую информацию для ответов:\n" ++
        "[Knowledge base будет добавлена позже]"
  | none => base

/-- `buildConversationContext` from `ai-conversation.service.ts`. -/
def buildConversationContext (s : AIConversationSession) : String :=
  String.intercalate "\n"
    (s.conversationHistory.map (fun t => roleLabel t.role ++ ": " ++ t.content))

/-- `processUserMessage` from `ai-conversation.service.ts`: throw when no
active session; push the user turn; build prompt and context; call the
generation provider (its outcome given by the `generateAIResponse`
oracles); on success push the assistant turn, synthesize speech (external,
errors caught internally) and return the text; on failure the catch logs
and rethrows the same error — the already-pushed user turn stays. -/
def processUserMessage (st : AIState) (callId userMessage : String)
    (genAIConfigured : Bool) (vertex google : Except String String) :
    Except String String × AIState :=
  match mapGet? st.activeSessions callId with
  | none => (Except.error ("No active session for call " ++ callId), st)
  | some s =>
      if s.isActive = false then
        (Except.error ("No active session for call " ++ callId), st)
      else
        let s1 := { s with conversationHistory :=
          s.conversationHistory ++ [{ role := Role.user, content := userMessage }] }
        let st1 := { st with activeSessions := mapSet st.activeSessions callId s1 }
        let _systemPrompt := buildSystemPrompt s1
        let _conversationContext := buildConversationContext s1
        match (GCloud.generateAIResponse genAIConfigured vertex google).1 with
        | Except.ok aiResponse =>
            let s2 := { s1 with conversationHistory :=
              s1.conversationHistory ++ [{ role := Role.assistant, content := aiResponse }] }
            (Except.ok aiResponse,
             { st1 with activeSessions := mapSet st1.activeSessions callId s2 })
        | Except.error e => (Except.error e, st1)

/-- The transcript built by `saveConversationHistory`: role-labelled turns
joined by blank lines. -/
def transcriptOf (history : List Turn) : String :=
  String.intercalate "\n\n"
    (history.map (fun t => roleLabel t.role ++ ": " ++ t.content))

/-- `endSession` from `ai-conversation.service.ts`: unknown callId is a
silent no-op; otherwise mark inactive, persist the transcript via
`saveConversationHistory` (whose DB errors are swallowed) and delete the
session. The outer catch swallows all errors, so nothing is thrown. -/
def endSession (st : AIState) (callId : String) : AIState :=
  match mapGet? st.activeSessions callId with
  | none => st
  | some s =>
      { activeSessions := mapDelete st.activeSessions callId
        store := storeUpdate st.store callId (transcriptOf s.conversationHistory) }

end AIConv

/-! Claim theorems. -/

/-- Registry state already holding its configured maximum of concurrent
sessions (`maxSessions = 2`, two live calls). -/
def c1State : Sip.SipState :=
  { activeCalls :=
      [("a1", { callId := "a1", direction := Direction.inbound,
                phoneNumber := "+77010000001", status := Sip.CallStatus.ongoing,
                startedAt := 1, answeredAt := some 1, hasDialog := true }),
       ("a2", { callId := "a2", direction := Direction.outbound,
                phoneNumber := "+77010000002", status := Sip.CallStatus.ongoing,
                startedAt := 2, answeredAt := some 2, hasDialog := true })],
    maxSessions := 2, sipNumber := "+77010000000" }

/-- C1: the claim says that with the maximum concurrent-session bound
already reached, `makeCall` rejects fast with a CapacityError and does not
register a RINGING session. The code contradicts this: at capacity
(`isMaxSessionsReached` is true, but neither `makeCall` nor any caller
consults it) `makeCall` still registers a new RINGING session, attempts
negotiation, and on success returns it — the registry ends with
`maxSessions + 1` live sessions and no error of any kind is raised. -/
theorem makeCall_ignores_capacity :
    Sip.isMaxSessionsReached c1State = true ∧
    mapGet? (Sip.makeCallRegister c1State "b3" "+77011234567" 10).2.activeCalls "b3" =
      some { callId := "b3", direction := Direction.outbound,
             phoneNumber := "+77011234567", status := Sip.CallStatus.ringing,
             startedAt := 10 } ∧
    (Sip.makeCall c1State "b3" "+77011234567" none 10 (Except.ok ())).1 =
      Except.ok { callId := "b3", direction := Direction.outbound,
                  phoneNumber := "+77011234567", status := Sip.CallStatus.ongoing,
                  startedAt := 10, answeredAt := some 10, hasDialog := true } ∧
    (Sip.makeCall c1State "b3" "+77011234567" none 10 (Except.ok ())).2.1.activeCalls.length = 3 :=
  ⟨rfl, rfl, rfl, rfl⟩

/-- After any `hangupCall`, the identifier is absent from the registry. -/
theorem hangupCall_removes (st : Sip.SipState) (callId : String) (now : Nat) :
    mapGet? (Sip.hangupCall st callId now).2.1.activeCalls callId = none := by
  unfold Sip.hangupCall Sip.handleCallEnd
  cases h : mapGet? st.activeCalls callId with
  | none => simpa using h
  | some s => simp [mapGet_mapDelete]

/-- C2: `hangupCall` on an identifier not in the registry fails with the
not-found error and changes nothing (no registry change, no events); any
terminal transition (`handleCallEnd`) leaves the identifier absent from
the registry, so a second `hangupCall` on an already-hung-up identifier
fails with the not-found error and has no side effects. -/
theorem hangup_unknown_fails_and_terminal_removes (st : Sip.SipState) (callId : String)
    (reason : Sip.CallStatus) (now now2 : Nat) :
    (mapGet? st.activeCalls callId = none →
      Sip.hangupCall st callId now = (Except.error (Sip.callNotFound callId), st, [])) ∧
    mapGet? (Sip.handleCallEnd st callId reason now).1.activeCalls callId = none ∧
    Sip.hangupCall (Sip.hangupCall st callId now).2.1 callId now2 =
      (Except.error (Sip.callNotFound callId), (Sip.hangupCall st callId now).2.1, []) := by
  refine ⟨fun h => by simp [Sip.hangupCall, h], ?_, ?_⟩
  · unfold Sip.handleCallEnd
    cases h : mapGet? st.activeCalls callId with
    | none => simpa using h
    | some s => simp [mapGet_mapDelete]
  · have h2 := hangupCall_removes st callId now
    rw [Sip.hangupCall, h2]

/-- Witness for C2 at a concrete registry. -/
theorem hangup_unknown_witness :
    Sip.hangupCall { activeCalls := [], maxSessions := 5, sipNumber := "" } "c9" 3 =
      (Except.error (Sip.callNotFound "c9"),
       { activeCalls := [], maxSessions := 5, sipNumber := "" }, []) :=
  (hangup_unknown_fails_and_terminal_removes
    { activeCalls := [], maxSessions := 5, sipNumber := "" }
    "c9" Sip.CallStatus.completed 3 4).1 rfl

/-- Operator session whose current-call reference is the call "c1". -/
def c7Manager : Gateway.ManagerSession :=
  { socketId := "s1", managerId := "m1", managerName := "Alice",
    currentCallId := some "c1", isRecording := false, audioChunks := [] }

/-- A SIP registry in which "c1" no longer exists (stale reference). -/
def c7SipEmpty : Sip.SipState :=
  { activeCalls := [], maxSessions := 5, sipNumber := "+7700" }

/-- A SIP registry in which "c1" is still live. -/
def c7SipLive : Sip.SipState :=
  { activeCalls :=
      [("c1", { callId := "c1", direction := Direction.outbound,
                phoneNumber := "+77011234567", status := Sip.CallStatus.ongoing,
                startedAt := 1, answeredAt := some 1, hasDialog := true })],
    maxSessions := 5, sipNumber := "+7700" }

/-- C7: the claim says a stale current-call reference is treated as "no
current call" — never an error, and the operator session is still removed.
The code contradicts this: with "c1" absent from the call registry,
`handleDisconnect` propagates the `Call c1 not found` error thrown by
`hangupCall` and the operator session stays in the mapping (first
conjunct); the claim's happy path — hang up the live current call, then
remove the session — does hold (second conjunct). -/
theorem disconnect_stale_reference_throws :
    Gateway.handleDisconnect [("m1", c7Manager)] c7SipEmpty "s1" 9 =
      (Except.error (Sip.callNotFound "c1"), [("m1", c7Manager)], c7SipEmpty, []) ∧
    Gateway.handleDisconnect [("m1", c7Manager)] c7SipLive "s1" 9 =
      (Except.ok (), [], { activeCalls := [], maxSessions := 5, sipNumber := "+7700" },
       [Sip.SipEvent.callEnded { callId := "c1", direction := Direction.outbound,
                                 phoneNumber := "+77011234567",
                                 status := Sip.CallStatus.completed, startedAt := 1,
                                 answeredAt := some 1, endedAt := some 9,
                                 hasDialog := true }]) :=
  ⟨rfl, rfl⟩

/-- C9: operator-gateway handshake acceptance depends only on the presence
of a (non-empty) auth token, never on its value: any two handshakes whose
tokens are non-empty are both acknowledged, identically. -/
theorem handshake_accepts_any_nonempty_token (t1 t2 : String)
    (h1 : t1 ≠ "") (h2 : t2 ≠ "") :
    Gateway.handleConnection (some t1) = Gateway.ConnectAction.acknowledge ∧
    Gateway.handleConnection (some t1) = Gateway.handleConnection (some t2) := by
  simp [Gateway.handleConnection, h1, h2]

/-- Witness for C9: a meaningless garbage token is accepted exactly like a
plausible JWT-shaped one. -/
theorem handshake_witness :
    Gateway.handleConnection (some "eyJhbGciOi.fake.jwt") =
      Gateway.ConnectAction.acknowledge ∧
    Gateway.handleConnection (some "eyJhbGciOi.fake.jwt") =
      Gateway.handleConnection (some "?!garbage") :=
  handshake_accepts_any_nonempty_token _ _ (by decide) (by decide)

/-- C3 counterexample: an inbound tool-call whose `functionCalls` array is
empty makes `processToolCall` reject (reading `functionCalls[0].name`
throws), and the `.catch` in `handleToolCall` only logs — zero tool
responses are sent, not the error-shaped one the claim requires. -/
theorem toolcall_empty_yields_silence :
    Gemini.processToolCall ⟨[]⟩ 0 =
      Except.error "TypeError: Cannot read properties of undefined (reading name)" ∧
    Gemini.handleToolCall ⟨[]⟩ 0 = [] :=
  ⟨rfl, rfl⟩

/-- C3 (amended): for every inbound tool-call carrying at least one function
call, the bridge sends exactly one tool-response, correlated to the first
function call's identifier (unknown function names still get a response —
an error-shaped one); in particular a `scheduleAppointment` call yields one
response carrying the generated appointment identifier. Tool-calls with no
function calls produce silence (see the counterexample). -/
theorem toolcall_exactly_one_response (fc : Gemini.FunctionCall)
    (rest : List Gemini.FunctionCall) (i : String)
    (args : List (String × String)) (now : Nat) :
    (∃ r, Gemini.processToolCall ⟨fc :: rest⟩ now = Except.ok r ∧
       Gemini.handleToolCall ⟨fc :: rest⟩ now = [⟨fc.id, r⟩]) ∧
    Gemini.handleToolCall ⟨[⟨i, "scheduleAppointment", args⟩]⟩ now =
      [⟨i, Gemini.Json.obj
        [("success", Gemini.Json.bool true),
         ("appointmentId", Gemini.Json.str ("apt-" ++ toString now)),
         ("message", Gemini.Json.str "Appointment scheduled successfully")]⟩] := by
  constructor
  · by_cases h1 : fc.name = "searchKnowledgeBase"
    · simp [Gemini.handleToolCall, Gemini.processToolCall, h1]
    · by_cases h2 : fc.name = "scheduleAppointment"
      · simp [Gemini.handleToolCall, Gemini.processToolCall, h1, h2]
      · simp [Gemini.handleToolCall, Gemini.processToolCall, h1, h2]
  · rfl

/-- A live-stream state mid-conversation: open socket, one queued audio
chunk, a partial transcript accumulated. -/
def c8State : Gemini.GeminiLiveState :=
  { ws := some true, sessionId := some "live-1700000000000-a1", isConnected := true,
    audioQueue := [⟨[7, 7], 42⟩], transcriptBuffer := "Да, слушаю" }

/-- C8 counterexample: `disconnect()` does run (the socket handle is
nulled), yet the pending-audio queue and the in-progress transcript
accumulator keep their values — they are not reset, contrary to the
claim's "all local per-session state" list. -/
theorem gemini_disconnect_not_all_cleared :
    (Gemini.disconnect c8State).ws = none ∧
    (Gemini.disconnect c8State).audioQueue = [⟨[7, 7], 42⟩] ∧
    (Gemini.disconnect c8State).transcriptBuffer = "Да, слушаю" :=
  ⟨rfl, rfl, rfl⟩

/-- C8 (amended): `disconnect()` is idempotent (a second call is a no-op),
and when a connection handle exists it clears the handle, the connected
flag and the session token; the pending-audio queue and the transcript
accumulator are left untouched. -/
theorem gemini_disconnect_amended (st : Gemini.GeminiLiveState) :
    Gemini.disconnect (Gemini.disconnect st) = Gemini.disconnect st ∧
    (Gemini.disconnect st).audioQueue = st.audioQueue ∧
    (Gemini.disconnect st).transcriptBuffer = st.transcriptBuffer ∧
    (st.ws ≠ none →
      (Gemini.disconnect st).ws = none ∧
      (Gemini.disconnect st).isConnected = false ∧
      (Gemini.disconnect st).sessionId = none) := by
  obtain ⟨ws, sid, conn, q, tb⟩ := st
  cases ws <;> simp [Gemini.disconnect]

/-- Witness for C8 (amended) at the concrete mid-conversation state. -/
theorem gemini_disconnect_amended_witness :
    Gemini.disconnect (Gemini.disconnect c8State) = Gemini.disconnect c8State ∧
    (Gemini.disconnect c8State).audioQueue = c8State.audioQueue ∧
    (Gemini.disconnect c8State).ws = none :=
  ⟨(gemini_disconnect_amended c8State).1,
   (gemini_disconnect_amended c8State).2.1,
   ((gemini_disconnect_amended c8State).2.2.2 (by decide)).1⟩

/-- C5 counterexample: with no Gemini API key configured (`genAI` never
initialized), a primary-provider failure attempts no fallback at all — the
original Vertex error is rethrown unchanged (not a combined error), even
though the fallback call would have succeeded. -/
theorem fallback_skipped_when_unconfigured :
    GCloud.generateAIResponse false (Except.error "Vertex AI timeout")
        (Except.ok "provider B text") =
      (Except.error "Vertex AI timeout", [GCloud.Provider.vertexAI]) :=
  rfl

/-- Behavior of `processUserMessage` when the session is active and the
generation call succeeds: the user and assistant turns are appended. -/
theorem processUserMessage_ok (st : AIConv.AIState) (callId msg : String)
    (cfg : Bool) (v g : Except String String) (s : AIConv.AIConversationSession)
    (t : String) (hs : mapGet? st.activeSessions callId = some s)
    (hact : s.isActive = true)
    (hgen : (GCloud.generateAIResponse cfg v g).1 = Except.ok t) :
    AIConv.processUserMessage st callId msg cfg v g =
      (Except.ok t,
       { st with activeSessions :=
           (mapSet st.activeSessions callId
             { s with conversationHistory := s.conversationHistory ++
                 [{ role := AIConv.Role.user, content := msg },
                  { role := AIConv.Role.assistant, content := t }] }) }) := by
  simp [AIConv.processUserMessage, hs, hact, hgen, mapSet_mapSet]

/-- Behavior of `processUserMessage` when the session is active and the
generation call fails: the error propagates and only the user turn stays. -/
theorem processUserMessage_err (st : AIConv.AIState) (callId msg : String)
    (cfg : Bool) (v g : Except String String) (s : AIConv.AIConversationSession)
    (e : String) (hs : mapGet? st.activeSessions callId = some s)
    (hact : s.isActive = true)
    (hgen : (GCloud.generateAIResponse cfg v g).1 = Except.error e) :
    AIConv.processUserMessage st callId msg cfg v g =
      (Except.error e,
       { st with activeSessions :=
           (mapSet st.activeSessions callId
             { s with conversationHistory := s.conversationHistory ++
                 [{ role := AIConv.Role.user, content := msg }] }) }) := by
  simp [AIConv.processUserMessage, hs, hact, hgen]

/-- Behavior of `processUserMessage` on an inactive session: throws, state
unchanged. -/
theorem processUserMessage_inactive (st : AIConv.AIState) (callId msg : String)
    (cfg : Bool) (v g : Except String String) (s : AIConv.AIConversationSession)
    (hs : mapGet? st.activeSessions callId = some s)
    (hact : s.isActive = false) :
    AIConv.processUserMessage st callId msg cfg v g =
      (Except.error ("No active session for call " ++ callId), st) := by
  simp [AIConv.processUserMessage, hs, hact]

/-- C5 (amended): when the fallback provider is configured (a Gemini API
key was supplied), a primary-provider failure attempts exactly one
fallback; if the fallback succeeds, `processUserMessage` returns the
fallback's text and the history gains exactly one new assistant turn
(besides the user turn being processed — not two assistant turns); if both
fail, a combined error naming both failures is surfaced and no assistant
turn is appended. Without a configured fallback the primary error is
surfaced unchanged with no fallback attempt (see the counterexample). -/
theorem fallback_one_attempt_when_configured (st : AIConv.AIState)
    (callId msg vertexError : String) (google : Except String String)
    (s : AIConv.AIConversationSession)
    (hs : mapGet? st.activeSessions callId = some s) (hact : s.isActive = true) :
    (GCloud.generateAIResponse true (Except.error vertexError) google).2 =
      [GCloud.Provider.vertexAI, GCloud.Provider.googleAI] ∧
    (∀ t, google = Except.ok t →
      AIConv.processUserMessage st callId msg true (Except.error vertexError) google =
        (Except.ok t,
         { st with activeSessions :=
             (mapSet st.activeSessions callId
               { s with conversationHistory := s.conversationHistory ++
                   [{ role := AIConv.Role.user, content := msg },
                    { role := AIConv.Role.assistant, content := t }] }) })) ∧
    (∀ ge, google = Except.error ge →
      AIConv.processUserMessage st callId msg true (Except.error vertexError) google =
        (Except.error ("AI generation failed: Vertex AI - " ++ vertexError ++
           ", Google AI - " ++ ge),
         { st with activeSessions :=
             (mapSet st.activeSessions callId
               { s with conversationHistory := s.conversationHistory ++
                   [{ role := AIConv.Role.user, content := msg }] }) })) := by
  refine ⟨?_, ?_, ?_⟩
  · cases google <;> rfl
  · intro t ht
    subst ht
    exact processUserMessage_ok st callId msg true (Except.error vertexError)
      (Except.ok t) s t hs hact rfl
  · intro ge hg
    subst hg
    exact processUserMessage_err st callId msg true (Except.error vertexError)
      (Except.error ge) s _ hs hact rfl

/-- An active AI conversation session for the C5 witness. -/
def c5Session : AIConv.AIConversationSession :=
  { callId := "c5", agentId := "a1", agent := {},
    conversationHistory := [{ role := AIConv.Role.assistant, content := "Здравствуйте!" }],
    audioBuffer := [], isActive := true }

/-- State holding the C5 witness session. -/
def c5State : AIConv.AIState :=
  { activeSessions := [("c5", c5Session)], store := [("c5", none)] }

/-- Witness for C5 (amended): primary times out, configured fallback
succeeds; the fallback text is returned and one assistant turn is added. -/
theorem fallback_one_attempt_witness :
    AIConv.processUserMessage c5State "c5" "Алло" true
        (Except.error "Vertex AI timeout") (Except.ok "Чем могу помочь?") =
      (Except.ok "Чем могу помочь?",
       { c5State with activeSessions :=
           (mapSet c5State.activeSessions "c5"
             { c5Session with conversationHistory := c5Session.conversationHistory ++
                 [{ role := AIConv.Role.user, content := "Алло" },
                  { role := AIConv.Role.assistant, content := "Чем могу помочь?" }] }) }) :=
  (fallback_one_attempt_when_configured c5State "c5" "Алло" "Vertex AI timeout"
    (Except.ok "Чем могу помочь?") c5Session rfl rfl).2.1 "Чем могу помочь?" rfl

/-- C10: if the generation call inside `processUserMessage` fails for an
active session, the same error propagates to the caller, no assistant turn
is appended, and the user turn pushed at the start of the operation stays
— the history is not rolled back and grows by exactly one user turn. -/
theorem failed_generation_keeps_user_turn (st : AIConv.AIState)
    (callId msg : String) (cfg : Bool) (vertex google : Except String String)
    (s : AIConv.AIConversationSession) (e : String)
    (hs : mapGet? st.activeSessions callId = some s) (hact : s.isActive = true)
    (hgen : (GCloud.generateAIResponse cfg vertex google).1 = Except.error e) :
    AIConv.processUserMessage st callId msg cfg vertex google =
      (Except.error e,
       { st with activeSessions :=
           (mapSet st.activeSessions callId
             { s with conversationHistory := s.conversationHistory ++
                 [{ role := AIConv.Role.user, content := msg }] }) }) :=
  processUserMessage_err st callId msg cfg vertex google s e hs hact hgen

/-- An active AI conversation session for the C10 witness. -/
def c10Session : AIConv.AIConversationSession :=
  { callId := "c0", agentId := "a1", agent := {},
    conversationHistory := [{ role := AIConv.Role.assistant, content := "Здравствуйте!" }],
    audioBuffer := [], isActive := true }

/-- State holding the C10 witness session. -/
def c10State : AIConv.AIState :=
  { activeSessions := [("c0", c10Session)], store := [("c0", none)] }

/-- Witness for C10: no fallback configured, provider throws; the error
propagates and the history keeps exactly the new user turn. -/
theorem failed_generation_witness :
    AIConv.processUserMessage c10State "c0" "Алло" false
        (Except.error "DEADLINE_EXCEEDED") (Except.ok "unused") =
      (Except.error "DEADLINE_EXCEEDED",
       { c10State with activeSessions :=
           (mapSet c10State.activeSessions "c0"
             { c10Session with conversationHistory := c10Session.conversationHistory ++
                 [{ role := AIConv.Role.user, content := "Алло" }] }) }) :=
  failed_generation_keeps_user_turn c10State "c0" "Алло" false
    (Except.error "DEADLINE_EXCEEDED") (Except.ok "unused") c10Session
    "DEADLINE_EXCEEDED" rfl rfl rfl

/-- Agent used in the C4 scenario (inbound greeting configured). -/
def c4Agent : AIConv.Agent := { inboundGreetingMessage := some "Добрый день!" }

/-- Initial orchestrator state for the C4 scenario: no sessions yet, one
conversation record for call "c1". -/
def c4State0 : AIConv.AIState := { activeSessions := [], store := [("c1", none)] }

/-- The C4 scenario run: start a session for call "c1", process "Hello"
(generation returns R1) then "Bye" (generation returns R2), and read back
the session's turn history. -/
def c4Run : Except String (List AIConv.Turn) :=
  match AIConv.startSession c4State0 "c1" "a1" Direction.inbound [("a1", c4Agent)] with
  | Except.error e => Except.error e
  | Except.ok st1 =>
      let (_, st2) := AIConv.processUserMessage st1 "c1" "Hello" true
        (Except.ok "R1") (Except.ok "R1")
      let (_, st3) := AIConv.processUserMessage st2 "c1" "Bye" true
        (Except.ok "R2") (Except.ok "R2")
      match mapGet? st3.activeSessions "c1" with
      | some s => Except.ok s.conversationHistory
      | none => Except.error "session missing"

/-- C4: turn history is strictly append-only — whatever `processUserMessage`
does (success, generation failure, inactive session), the session's
history afterwards is the old history extended by a suffix, never
reordered, mutated or deduplicated; and the concrete scenario "start, then
Hello, then Bye" yields exactly the five turns in chronological order. -/
theorem history_append_only_and_scenario :
    (∀ (st : AIConv.AIState) (callId msg : String) (cfg : Bool)
       (v g : Except String String) (s s' : AIConv.AIConversationSession),
       mapGet? st.activeSessions callId = some s →
       mapGet? (AIConv.processUserMessage st callId msg cfg v g).2.activeSessions callId =
         some s' →
       ∃ tail, s'.conversationHistory = s.conversationHistory ++ tail) ∧
    c4Run = Except.ok
      [{ role := AIConv.Role.assistant, content := "Добрый день!" },
       { role := AIConv.Role.user, content := "Hello" },
       { role := AIConv.Role.assistant, content := "R1" },
       { role := AIConv.Role.user, content := "Bye" },
       { role := AIConv.Role.assistant, content := "R2" }] := by
  constructor
  · intro st callId msg cfg v g s s' hs hs'
    by_cases hact : s.isActive = true
    · cases hg : (GCloud.generateAIResponse cfg v g).1 with
      | ok t =>
          rw [processUserMessage_ok st callId msg cfg v g s t hs hact hg] at hs'
          simp only [mapGet_mapSet, Option.some.injEq] at hs'
          exact ⟨_, by rw [← hs']⟩
      | error e =>
          rw [processUserMessage_err st callId msg cfg v g s e hs hact hg] at hs'
          simp only [mapGet_mapSet, Option.some.injEq] at hs'
          exact ⟨_, by rw [← hs']⟩
    · have hf : s.isActive = false := by
        revert hact; cases s.isActive <;> simp
      rw [processUserMessage_inactive st callId msg cfg v g s hs hf] at hs'
      rw [hs] at hs'
      refine ⟨[], ?_⟩
      cases hs'
      simp
  · rfl

/-- C6: `endSession` on an identifier with no active session is a silent
no-op (no error, nothing changes), and `endSession` is idempotent: a
second call on the same identifier leaves the whole state — in particular
the persisted transcript — exactly as after the first call. -/
theorem endSession_noop_and_idempotent (st : AIConv.AIState) (callId : String) :
    (mapGet? st.activeSessions callId = none → AIConv.endSession st callId = st) ∧
    AIConv.endSession (AIConv.endSession st callId) callId =
      AIConv.endSession st callId := by
  constructor
  · intro h
    simp [AIConv.endSession, h]
  · cases h : mapGet? st.activeSessions callId with
    | none => simp [AIConv.endSession, h]
    | some s => simp [AIConv.endSession, h, mapGet_mapDelete]

/-- The session ended in the C6 witness. -/
def c6Session : AIConv.AIConversationSession :=
  { callId := "c6", agentId := "a1", agent := {},
    conversationHistory :=
      [{ role := AIConv.Role.assistant, content := "Здравствуйте!" },
       { role := AIConv.Role.user, content := "Алло" }],
    audioBuffer := [], isActive := true }

/-- State holding the C6 witness session and its conversation record. -/
def c6State : AIConv.AIState :=
  { activeSessions := [("c6", c6Session)], store := [("c6", none)] }

/-- Witness for C6: ending twice equals ending once at a concrete state,
and ending an unknown identifier is a no-op there. -/
theorem endSession_witness :
    AIConv.endSession (AIConv.endSession c6State "c6") "c6" =
      AIConv.endSession c6State "c6" ∧
    AIConv.endSession c6State "zz" = c6State :=
  ⟨(endSession_noop_and_idempotent c6State "c6").2,
   (endSession_noop_and_idempotent c6State "zz").1 rfl⟩

/-- An active session used by the C4 witness. -/
def c4WSession : AIConv.AIConversationSession :=
  { callId := "w", agentId := "a1", agent := {},
    conversationHistory := [{ role := AIConv.Role.assistant, content := "G" }],
    audioBuffer := [], isActive := true }

/-- State holding the C4 witness session. -/
def c4WState : AIConv.AIState :=
  { activeSessions := [("w", c4WSession)], store := [("w", none)] }

/-- Witness for C4 at a concrete state: one `processUserMessage` call
extends the history by a suffix. -/
theorem history_append_only_witness :
    ∃ tail,
      ({ c4WSession with conversationHistory := c4WSession.conversationHistory ++
           [{ role := AIConv.Role.user, content := "Hi" },
            { role := AIConv.Role.assistant, content := "R" }] } :
         AIConv.AIConversationSession).conversationHistory =
        c4WSession.conversationHistory ++ tail :=
  history_append_only_and_scenario.1 c4WState "w" "Hi" true (Except.ok "R")
    (Except.ok "R") c4WSession _ rfl rfl
